import Mathlib

/-!
Shallow embedding of the in-memory entity graph and validation engine of
`property_menu_builder` (Rust, iced GUI).  Pure validation functions are
translated from `src/data_types.rs`, `src/security_levels.rs`,
`src/choice_groups.rs`, `src/choice_groups/edit.rs`, `src/item_groups/edit.rs`
and `src/product_classes.rs`; the stateful update/delete operations are
translated from the `update`/`perform` handlers in `src/main.rs`.
Rust `i32` ids are modelled as `Int` (no arithmetic in the embedded code can
overflow an `i32` on the inputs considered), `BTreeMap<EntityId, T>` as an
association list with unique keys, fallible lookups (`unwrap`, `[]` indexing)
as `Option`.
-/

namespace MenuBuilderSpec

/-- `EntityId` from src/data_types.rs: `pub type EntityId = i32`. -/
abbrev EntityId := Int

/-- Rust `s.trim().is_empty()`: true iff every character of `s` is whitespace.
(Rust trims Unicode `White_Space`; the names in this development are ASCII,
where `Char.isWhitespace` agrees.) -/
def blankName (s : String) : Bool :=
  s.data.all Char.isWhitespace

/-- Digit-folding helper for `parseEntityId`: consumes ASCII digits, failing
on the first non-digit character. -/
def parseNatAux : List Char → Nat → Option Nat
  | [], acc => some acc
  | c :: cs, acc =>
    if '0' ≤ c ∧ c ≤ '9' then parseNatAux cs (acc * 10 + (c.toNat - 48)) else none

/-- Sign/bounds wrapper for `parseEntityId`. -/
def parseSigned (cs : List Char) (neg : Bool) : Option EntityId :=
  if cs.isEmpty then none
  else
    match parseNatAux cs 0 with
    | none => none
    | some n =>
      let v : Int := if neg then -(n : Int) else (n : Int)
      if -2147483648 ≤ v ∧ v ≤ 2147483647 then some v else none

/-- Rust `str::parse::<i32>()`: an optional `+`/`-` sign followed by one or
more ASCII digits, rejected when empty or outside the `i32` range. -/
def parseEntityId (s : String) : Option EntityId :=
  match s.data with
  | '-' :: cs => parseSigned cs true
  | '+' :: cs => parseSigned cs false
  | cs => parseSigned cs false

/-- Rust `parse::<i32>().unwrap()` as used on the edit-state id strings in
src/main.rs; the unwrap panics on a non-numeric string, which never holds for
the states built here (ids are rendered with `to_string`), so the default
value of the total model is never reached. -/
def parseUnwrap (s : String) : EntityId :=
  (parseEntityId s).getD 0

/-- A Rust `Range<EntityId>` value: fields `start` and `end` (here `stop`,
since `end` is a Lean keyword). -/
structure RustRange where
  start : Int
  stop : Int
deriving DecidableEq

/-- Union of the validation-error enums of data_types.rs and the per-module
error enums (`RangeOverlap` is used by item_groups/edit.rs,
`MissingItemGroup`/`MissingRevenueCategory` by product_classes.rs). -/
inductive ValidationError where
  | InvalidId (msg : String)
  | DuplicateId (msg : String)
  | EmptyName (msg : String)
  | InvalidRange (msg : String)
  | InvalidValue (msg : String)
  | InvalidReference (msg : String)
  | RangeOverlap (msg : String)
  | MissingItemGroup (msg : String)
  | MissingRevenueCategory (msg : String)
deriving DecidableEq

/-- `IdRange` from src/data_types.rs. -/
inductive IdRange where
  | Item (r : RustRange)
  | PriceLevel (r : RustRange)
  | StorePriceLevel (r : RustRange)
  | TaxGroup (r : RustRange)
  | SecurityLevel (r : RustRange)
  | RevenueCategory (r : RustRange)
  | ReportCategory (r : RustRange)
  | ItemGroup (r : RustRange)
  | ProductClass (r : RustRange)
  | ChoiceGroup (r : RustRange)
  | PrinterLogical (r : RustRange)
deriving DecidableEq

/-- `IdRange::is_valid` from src/data_types.rs, lines 45-61.  `(a..=b).contains`
is the closed interval, `Range::contains` (Item, ItemGroup) the half-open one. -/
def IdRange.is_valid : IdRange → EntityId → Bool
  | .TaxGroup _, id => 1 ≤ id && id ≤ 99
  | .SecurityLevel _, id => 0 ≤ id && id ≤ 9
  | .RevenueCategory _, id => 1 ≤ id && id ≤ 99
  | .ReportCategory _, id => 1 ≤ id && id ≤ 255
  | .ProductClass _, id => 1 ≤ id && id ≤ 999
  | .ChoiceGroup _, id => 1 ≤ id && id ≤ 9999
  | .PrinterLogical _, id => 0 ≤ id && id ≤ 25
  | .PriceLevel _, id => 1 ≤ id && id ≤ 999
  | .StorePriceLevel _, id => 1 ≤ id && id ≤ 99999
  | .ItemGroup r, id => r.start ≤ id && id < r.stop
  | .Item r, id => r.start ≤ id && id < r.stop

/-- `SecurityLevel` from src/security_levels.rs. -/
structure SecurityLevel where
  id : EntityId
  name : String
deriving DecidableEq

/-- `SecurityLevel::default()`: id `-1`, empty name. -/
def SecurityLevel.defaultValue : SecurityLevel := { id := -1, name := "" }

/-- `SecurityLevel::validate` from src/security_levels.rs, lines 110-132:
checks `(1..=999).contains(&self.id)`, then duplicate ids, then the name. -/
def SecurityLevel.validate (self : SecurityLevel) (other_levels : List SecurityLevel) :
    Except ValidationError Unit :=
  if ¬(1 ≤ self.id ∧ self.id ≤ 999) then
    .error (.InvalidId "Security level ID must be between 1 and 999")
  else
    match other_levels.find? (fun other => other.id == self.id) with
    | some _ => .error (.DuplicateId
        ("Security level with ID " ++ toString self.id ++ " already exists"))
    | none =>
      if blankName self.name then
        .error (.EmptyName "Security level name cannot be empty")
      else
        .ok ()

/-- `security_levels::EditState` (string-typed form fields). -/
structure SLEditState where
  name : String
  id : String
  validation_error : Option String
deriving DecidableEq

/-- `EditState::validate` from src/security_levels.rs, lines 60-81: the name
is checked first, then the id string is parsed and range-checked. -/
def SLEditState.validate (self : SLEditState) : Except ValidationError Unit :=
  if blankName self.name then
    .error (.EmptyName "Security level name cannot be empty")
  else
    match parseEntityId self.id with
    | some id =>
      if ¬(1 ≤ id ∧ id ≤ 999) then
        .error (.InvalidId "Security level ID must be between 1 and 999")
      else
        .ok ()
    | none => .error (.InvalidId "Invalid ID format")

/-- `ChoiceGroup` from src/choice_groups.rs. -/
structure ChoiceGroup where
  id : EntityId
  name : String
deriving DecidableEq

/-- `ChoiceGroup::default()`: id `-1`, empty name. -/
def ChoiceGroup.defaultValue : ChoiceGroup := { id := -1, name := "" }

/-- `ChoiceGroup::validate` from src/choice_groups.rs, lines 51-77: id range
`1..=9999` first, then duplicates, then the name. -/
def ChoiceGroup.validate (self : ChoiceGroup) (other_groups : List ChoiceGroup) :
    Except ValidationError Unit :=
  if ¬(1 ≤ self.id ∧ self.id ≤ 9999) then
    .error (.InvalidId "Choice Group ID must be between 1 and 9999")
  else
    match other_groups.find? (fun other => other.id == self.id) with
    | some _ => .error (.DuplicateId
        ("Choice Group with ID " ++ toString self.id ++ " already exists"))
    | none =>
      if blankName self.name then
        .error (.EmptyName "Choice Group name cannot be empty")
      else
        .ok ()

/-- `choice_groups::edit::EditState` from src/choice_groups/edit.rs. -/
structure CGEditState where
  name : String
  id : String
  validation_error : Option String
deriving DecidableEq

/-- `EditState::validate` from src/choice_groups/edit.rs, lines 36-63: empty
name first, then id parse, then range `1..=9999`, then duplicate ids. -/
def CGEditState.validate (self : CGEditState) (other_groups : List ChoiceGroup) :
    Except ValidationError Unit :=
  if blankName self.name then
    .error (.EmptyName "Choice group name cannot be empty")
  else
    match parseEntityId self.id with
    | none => .error (.InvalidId "Invalid ID format")
    | some id =>
      if ¬(1 ≤ id ∧ id ≤ 9999) then
        .error (.InvalidId "Choice Group ID must be between 1 and 9999")
      else
        match other_groups.find? (fun other => id == other.id) with
        | some _ => .error (.DuplicateId
            ("Choice Group with ID " ++ toString id ++ " already exists"))
        | none => .ok ()

/-- `ItemGroup` from src/item_groups (fields as used by item_groups/edit.rs
and main.rs): an id, a name and an `id_range`. -/
structure ItemGroup where
  id : EntityId
  name : String
  id_range : RustRange
deriving DecidableEq

/-- `ranges_overlap` from src/item_groups/edit.rs, lines 66-68:
`range1.start() <= range2.end() && range2.start() <= range1.end()` on
inclusive ranges, given here by their endpoint pairs. -/
def ranges_overlap (range1 range2 : Int × Int) : Bool :=
  range1.1 ≤ range2.2 && range2.1 ≤ range1.2

/-- `item_groups::edit::EditState` from src/item_groups/edit.rs. -/
structure IGEditState where
  name : String
  range_start : String
  range_end : String
  validation_error : Option String
deriving DecidableEq

/-- `EditState::validate` from src/item_groups/edit.rs, lines 31-64: empty
name first, then both endpoints parsed, then `start < end`, then the
closed-interval overlap test against every other group. -/
def IGEditState.validate (self : IGEditState) (other_groups : List ItemGroup) :
    Except ValidationError Unit :=
  if blankName self.name then
    .error (.EmptyName "Item group name cannot be empty")
  else
    match parseEntityId self.range_start with
    | none => .error (.InvalidId "Invalid range start value")
    | some start =>
      match parseEntityId self.range_end with
      | none => .error (.InvalidId "Invalid range end value")
      | some stop =>
        if start ≥ stop then
          .error (.InvalidRange "Start ID must be less than end ID")
        else
          match other_groups.find? (fun other =>
              ranges_overlap (start, stop) (other.id_range.start, other.id_range.stop)) with
          | some other => .error (.RangeOverlap
              ("Range overlaps with group \x27" ++ other.name ++ "\x27"))
          | none => .ok ()

/-- `Item` from src/items (fields as read and written by src/main.rs):
scalar references are `Option<EntityId>`, list references
`Option<Vec<EntityId>>`, prices an opaque list of (price level id, price)
entries. -/
structure Item where
  id : EntityId
  name : String
  item_group : Option EntityId
  tax_group : Option EntityId
  security_level : Option EntityId
  revenue_category : Option EntityId
  report_category : Option EntityId
  product_class : Option EntityId
  choice_groups : Option (List EntityId)
  printer_logicals : Option (List EntityId)
  price_levels : Option (List EntityId)
  item_prices : Option (List (EntityId × String))
deriving DecidableEq

/-- `Item::default()`: draft sentinel id `-1`, everything else empty. -/
def Item.defaultValue : Item :=
  { id := -1, name := "", item_group := none, tax_group := none,
    security_level := none, revenue_category := none, report_category := none,
    product_class := none, choice_groups := none, printer_logicals := none,
    price_levels := none, item_prices := none }

/-- `ProductClass` from src/product_classes.rs. -/
structure ProductClass where
  id : EntityId
  name : String
  item_group : Option EntityId
  revenue_category : Option EntityId
deriving DecidableEq

/-- `RevenueCategory` (module not in src; fields as used by src/main.rs). -/
structure RevenueCategory where
  id : EntityId
  name : String
deriving DecidableEq

/-- `PrinterLogical` (module not in src; fields as used by src/main.rs). -/
structure PrinterLogical where
  id : EntityId
  name : String
deriving DecidableEq

/-- `entity_component::EditState` (fields as used by src/main.rs for the
printer-logical and choice-group multi-edit vectors). -/
structure ECEditState where
  name : String
  original_name : String
  id : String
  id_validation_error : Option String
  name_validation_error : Option String
deriving DecidableEq

/-- `item_groups::ItemGroupEditState` (fields as used by src/main.rs:
`base.name`, `base.id`, `id_range_start`, `id_range_end`, flattened here). -/
structure ItemGroupEditState where
  base_name : String
  base_id : String
  id_range_start : String
  id_range_end : String
deriving DecidableEq

/-- `ItemGroupEditState::new(&item_group)` (constructor body not in src;
modelled after the `EditState::new` constructors of edit.rs files: every
field is rendered from the group). -/
def ItemGroupEditState.new (g : ItemGroup) : ItemGroupEditState :=
  { base_name := g.name, base_id := toString g.id,
    id_range_start := toString g.id_range.start,
    id_range_end := toString g.id_range.stop }

/-- `BTreeMap<EntityId, α>` modelled as an association list; the operations
below keep keys unique, and key order is irrelevant to every property
considered here. -/
abbrev Store (α : Type) := List (EntityId × α)

namespace Store

/-- `BTreeMap::get`. -/
def get? {α : Type} : Store α → EntityId → Option α
  | [], _ => none
  | p :: rest, k => if p.1 = k then some p.2 else get? rest k

/-- `BTreeMap::remove` (dropping the returned value). -/
def remove {α : Type} : Store α → EntityId → Store α
  | [], _ => []
  | p :: rest, k => if p.1 = k then remove rest k else p :: remove rest k

/-- `BTreeMap::insert` (dropping the returned previous value). -/
def insert {α : Type} (s : Store α) (k : EntityId) (v : α) : Store α :=
  (k, v) :: s.remove k

/-- `BTreeMap::contains_key`. -/
def containsKey {α : Type} (s : Store α) (k : EntityId) : Bool :=
  (s.get? k).isSome

/-- `for (_, v) in map.iter_mut() { *v = f(v) }`. -/
def mapValues {α : Type} (f : α → α) : Store α → Store α
  | [] => []
  | p :: rest => (p.1, f p.2) :: mapValues f rest

/-- `map.keys().max()`. -/
def maxKey {α : Type} : Store α → Option EntityId
  | [] => none
  | p :: rest =>
    match maxKey rest with
    | none => some p.1
    | some m => some (max p.1 m)

/-- `map.keys().max().map_or(1, |max_id| max_id + 1)` — the id-allocation
idiom repeated at every creation/copy site in src/main.rs. -/
def nextId {α : Type} (s : Store α) : EntityId :=
  match s.maxKey with
  | none => 1
  | some m => m + 1

theorem get?_remove_self {α : Type} (s : Store α) (k : EntityId) :
    (s.remove k).get? k = none := by
  induction s with
  | nil => rfl
  | cons p rest ih =>
    by_cases h : p.1 = k <;> simp [remove, get?, h, ih]

theorem get?_remove_ne {α : Type} (s : Store α) (k k' : EntityId) (h : k' ≠ k) :
    (s.remove k).get? k' = s.get? k' := by
  induction s with
  | nil => rfl
  | cons p rest ih =>
    by_cases hp : p.1 = k
    · simp [remove, get?, hp, Ne.symm h, ih]
    · by_cases hp' : p.1 = k' <;> simp [remove, get?, hp, hp', h, ih]

theorem get?_insert_self {α : Type} (s : Store α) (k : EntityId) (v : α) :
    (s.insert k v).get? k = some v := by
  simp [insert, get?]

theorem get?_insert_ne {α : Type} (s : Store α) (k k' : EntityId) (v : α) (h : k' ≠ k) :
    (s.insert k v).get? k' = s.get? k' := by
  have : k ≠ k' := fun hk => h hk.symm
  simp [insert, get?, this, get?_remove_ne s k k' h]

theorem get?_mapValues {α : Type} (f : α → α) (s : Store α) (k : EntityId) :
    (s.mapValues f).get? k = (s.get? k).map f := by
  induction s with
  | nil => rfl
  | cons p rest ih =>
    by_cases h : p.1 = k <;> simp [mapValues, get?, h, ih]

theorem le_maxKey_of_get? {α : Type} (s : Store α) (k : EntityId) (v : α)
    (h : s.get? k = some v) : ∃ m, s.maxKey = some m ∧ k ≤ m := by
  induction s with
  | nil => simp [get?] at h
  | cons p rest ih =>
    by_cases hp : p.1 = k
    · cases hm : maxKey rest with
      | none => exact ⟨p.1, by simp [maxKey, hm], le_of_eq hp.symm⟩
      | some m => exact ⟨max p.1 m, by simp [maxKey, hm], le_max_of_le_left (le_of_eq hp.symm)⟩
    · simp only [get?, hp, if_false] at h
      obtain ⟨m, hm, hk⟩ := ih h
      refine ⟨max p.1 m, ?_, le_max_of_le_right hk⟩
      simp [maxKey, hm]

theorem lt_nextId_of_get? {α : Type} (s : Store α) (k : EntityId) (v : α)
    (h : s.get? k = some v) : k < s.nextId := by
  obtain ⟨m, hm, hk⟩ := le_maxKey_of_get? s k v h
  have hnext : s.nextId = m + 1 := by simp [nextId, hm]
  rw [hnext]
  exact Int.lt_add_one_iff.mpr hk

end Store

/-- The slice of the `MenuBuilder` application state (src/main.rs, lines
119-186) that the modelled operations read or write: the entity collections
plus the per-type draft/edit bookkeeping.  UI-only fields (`screen`,
`show_modal`, theme, persistence handles) are omitted; no modelled operation
depends on them. -/
structure AppState where
  items : Store Item
  item_groups : Store ItemGroup
  product_classes : Store ProductClass
  choice_groups : Store ChoiceGroup
  revenue_categories : Store RevenueCategory
  printer_logicals : Store PrinterLogical
  draft_item : Item
  draft_item_id : Option EntityId
  selected_item_id : Option EntityId
  draft_choice_group : ChoiceGroup
  draft_choice_group_id : Option EntityId
  selected_choice_group_id : Option EntityId
  choice_group_edit_state : CGEditState
  item_group_edit_state_vec : List ItemGroupEditState
  printer_logical_edit_state_vec : List ECEditState
  selected_printer_id : Option EntityId

/-- An `AppState` with every collection empty and every draft slot reset. -/
def emptyState : AppState :=
  { items := [], item_groups := [], product_classes := [], choice_groups := [],
    revenue_categories := [], printer_logicals := [],
    draft_item := Item.defaultValue, draft_item_id := none, selected_item_id := none,
    draft_choice_group := ChoiceGroup.defaultValue, draft_choice_group_id := none,
    selected_choice_group_id := none,
    choice_group_edit_state := { name := "", id := "", validation_error := none },
    item_group_edit_state_vec := [], printer_logical_edit_state_vec := [],
    selected_printer_id := none }

/-! ### Choice-group operations (src/main.rs, `Operation::ChoiceGroups`) -/

/-- `choice_groups::Operation::Save` handler, src/main.rs lines 2617-2645:
a negative id means a new record — only then is a fresh id allocated. -/
def cgSave (s : AppState) (choice_group : ChoiceGroup) : AppState :=
  if choice_group.id < 0 then
    let next_id := s.choice_groups.nextId
    let cg := { choice_group with id := next_id }
    { s with choice_groups := s.choice_groups.insert next_id cg,
             draft_choice_group_id := none,
             draft_choice_group := ChoiceGroup.defaultValue,
             selected_choice_group_id := some next_id }
  else
    { s with choice_groups := s.choice_groups.insert choice_group.id choice_group,
             selected_choice_group_id := some choice_group.id }

/-- `choice_groups::Operation::StartEdit` handler, src/main.rs lines
2646-2652.  The `self.choice_groups[&choice_group_id]` index panics when the
id is absent; the panic is modelled as `none`. -/
def cgStartEdit (s : AppState) (choice_group_id : EntityId) : Option AppState :=
  (s.choice_groups.get? choice_group_id).map fun cg =>
    { s with draft_choice_group_id := some choice_group_id,
             draft_choice_group := cg }

/-- `choice_groups::Operation::Cancel` handler, src/main.rs lines 2653-2660:
the draft slot is reset; no collection is touched. -/
def cgCancel (s : AppState) : AppState :=
  if s.draft_choice_group_id.isSome then
    { s with draft_choice_group_id := none,
             draft_choice_group := ChoiceGroup.defaultValue }
  else s

/-- `choice_groups::Operation::CreateNew` handler, src/main.rs lines
2665-2676: the incoming draft (built by `ChoiceGroup::default()` in
src/choice_groups.rs) has its id overwritten with `next_id` immediately,
while the draft-tracking slot is set to `-1`. -/
def cgCreateNew (s : AppState) (choice_group : ChoiceGroup) : AppState :=
  let next_id := s.choice_groups.nextId
  { s with draft_choice_group := { choice_group with id := next_id },
           draft_choice_group_id := some (-1),
           selected_choice_group_id := some (-1) }

/-- `choice_groups::Operation::CopyChoiceGroup` handler, src/main.rs lines
2687-2708.  `self.choice_groups.get(&id).unwrap()` panics on an absent id;
the panic is modelled as `none`. -/
def cgCopy (s : AppState) (id : EntityId) : Option AppState :=
  (s.choice_groups.get? id).map fun copy_item =>
    let next_id := s.choice_groups.nextId
    let new_item : ChoiceGroup :=
      { id := next_id, name := copy_item.name ++ "(" ++ toString next_id ++ ")" }
    { s with choice_groups := s.choice_groups.insert next_id new_item,
             draft_choice_group_id := some next_id,
             draft_choice_group := new_item,
             selected_choice_group_id := some next_id }

/-- Field-edit messages of `choice_groups::update` (src/choice_groups.rs,
`edit::Message::UpdateName` / `UpdateId`): both write only the edit state. -/
inductive CGEditMsg where
  | updateName (v : String)
  | updateId (v : String)

/-- One field-edit step on the choice-group edit state (src/choice_groups.rs
lines 86-96). -/
def cgEditStep (s : AppState) : CGEditMsg → AppState
  | .updateName v =>
    { s with choice_group_edit_state :=
        { s.choice_group_edit_state with name := v, validation_error := none } }
  | .updateId v =>
    { s with choice_group_edit_state :=
        { s.choice_group_edit_state with id := v, validation_error := none } }

/-- A sequence of field-edit messages. -/
def cgEditSeq (s : AppState) (msgs : List CGEditMsg) : AppState :=
  msgs.foldl cgEditStep s

/-! ### Item operations (src/main.rs, `Operation::Items`) -/

/-- `items::Operation::CreateNew` handler, src/main.rs lines 1623-1635: the
draft item's id is overwritten with `next_id` at draft-creation time while
`draft_item_id` is set to `-1`. -/
def itemCreateNew (s : AppState) (item : Item) : AppState :=
  let next_id := s.items.nextId
  { s with draft_item := { item with id := next_id },
           draft_item_id := some (-1),
           selected_item_id := some (-1) }

/-- `items::Operation::Cancel` handler, src/main.rs lines 1607-1614. -/
def itemCancel (s : AppState) : AppState :=
  if s.draft_item_id.isSome then
    { s with draft_item_id := none, draft_item := Item.defaultValue }
  else s

/-- The record built by the copy handlers of src/main.rs:
`Item { id: next_id, name: name + "(" + next_id + ")", ..copy.clone() }` —
the struct-update keeps every field other than `id` and `name`. -/
def Item.copyWithId (it : Item) (n : EntityId) : Item :=
  { it with id := n, name := it.name ++ "(" ++ toString n ++ ")" }

/-- `items::Operation::CopyItem` handler, src/main.rs lines 1655-1676: the
copied record is inserted as a committed entity immediately, with the next
free id and `"(<new_id>)"` appended to the name; `..copy_item.clone()` keeps
every other field.  `self.items.get(&id).unwrap()` panics on an absent id;
the panic is modelled as `none`. -/
def itemCopy (s : AppState) (id : EntityId) : Option AppState :=
  (s.items.get? id).map fun copy_item =>
    let next_id := s.items.nextId
    let new_item : Item := copy_item.copyWithId next_id
    { s with items := s.items.insert next_id new_item,
             draft_item_id := some next_id,
             draft_item := new_item,
             selected_item_id := some next_id }

/-! ### Item-group operations (src/main.rs, `Operation::ItemGroups`) -/

/-- `item_groups::Operation::CreateNew` handler, src/main.rs lines 1815-1841:
the new group (id `next_id`, empty name, range `0..0`) is inserted into the
committed collection immediately, and an edit state for it is pushed. -/
def igCreateNew (s : AppState) : AppState :=
  let next_id := s.item_groups.nextId
  let item_group : ItemGroup :=
    { id := next_id, id_range := { start := 0, stop := 0 }, name := "" }
  { s with item_groups := s.item_groups.insert next_id item_group,
           item_group_edit_state_vec :=
             s.item_group_edit_state_vec ++ [ItemGroupEditState.new item_group] }

/-- `item_groups::Operation::CancelEdit` handler, src/main.rs lines
1842-1859: only the edit state is dropped (after an in-place `reset()` of the
state about to be dropped); the collection is untouched. -/
def igCancelEdit (s : AppState) (id : EntityId) : AppState :=
  { s with item_group_edit_state_vec :=
      s.item_group_edit_state_vec.filter (fun st => parseUnwrap st.base_id ≠ id) }

/-- Replace the first element satisfying `p` — the `iter_mut().find(...)`
then mutate idiom of src/main.rs. -/
def modifyFirst {α : Type} (p : α → Bool) (f : α → α) : List α → List α
  | [] => []
  | x :: xs => if p x then f x :: xs else x :: modifyFirst p f xs

/-- Field-edit messages of the item-group multi-edit path
(`item_groups::Operation::UpdateName` / `UpdateIdRangeStart` /
`UpdateIdRangeEnd`, src/main.rs lines 1782-1815): all write only the edit
state found for the given id. -/
inductive IGEditMsg where
  | updateName (id : EntityId) (v : String)
  | updateRangeStart (id : EntityId) (v : String)
  | updateRangeEnd (id : EntityId) (v : String)

/-- One multi-edit step on the item-group edit-state vector. -/
def igEditStep (s : AppState) : IGEditMsg → AppState
  | .updateName id v =>
    { s with item_group_edit_state_vec :=
        (modifyFirst (fun st => parseUnwrap st.base_id == id)
          (fun st => { st with base_name := v }) s.item_group_edit_state_vec) }
  | .updateRangeStart id v =>
    { s with item_group_edit_state_vec :=
        (modifyFirst (fun st => parseUnwrap st.base_id == id)
          (fun st => { st with id_range_start := v }) s.item_group_edit_state_vec) }
  | .updateRangeEnd id v =>
    { s with item_group_edit_state_vec :=
        (modifyFirst (fun st => parseUnwrap st.base_id == id)
          (fun st => { st with id_range_end := v }) s.item_group_edit_state_vec) }

/-- A sequence of item-group multi-edit messages. -/
def igEditSeq (s : AppState) (msgs : List IGEditMsg) : AppState :=
  msgs.foldl igEditStep s

/-! ### Confirmed deletion (src/main.rs, `Message::ConfirmDelete`) -/

/-- The per-item cleanup of the `"ChoiceGroup"` deletion branch, src/main.rs
lines 734-746: retain every other id in the `choice_groups` list and collapse
an emptied list to `None`. -/
def stripChoiceGroupRef (d : EntityId) (item : Item) : Item :=
  match item.choice_groups with
  | none => item
  | some groups =>
    let groups' := groups.filter (fun group_id => group_id ≠ d)
    if groups'.isEmpty then { item with choice_groups := none }
    else { item with choice_groups := some groups' }

/-- `ConfirmDelete` `"ChoiceGroup"` branch, src/main.rs lines 733-751: strip
the id from every item, then remove the choice group and clear the
selection. -/
def confirmDeleteChoiceGroup (s : AppState) (d : EntityId) : AppState :=
  { s with items := s.items.mapValues (stripChoiceGroupRef d),
           choice_groups := s.choice_groups.remove d,
           selected_choice_group_id := none }

/-- `ConfirmDelete` `"ItemGroup"` branch, src/main.rs lines 752-766: null the
`item_group` reference of every item that names `d`, then remove the group.
Product classes are not visited. -/
def confirmDeleteItemGroup (s : AppState) (d : EntityId) : AppState :=
  { s with items := s.items.mapValues (fun item =>
      if item.item_group = some d then { item with item_group := none } else item),
           item_groups := s.item_groups.remove d }

/-- `ConfirmDelete` `"Item"` branch, src/main.rs lines 767-769: remove the
item if present, otherwise do nothing. -/
def confirmDeleteItemEntity (s : AppState) (d : EntityId) : AppState :=
  if s.items.containsKey d then { s with items := s.items.remove d } else s

/-- `ConfirmDelete` `"RevenueCategory"` branch, src/main.rs lines 839-853:
null the `revenue_category` reference of every item that names `d`, then
remove the category.  Product classes are not visited. -/
def confirmDeleteRevenueCategory (s : AppState) (d : EntityId) : AppState :=
  { s with items := s.items.mapValues (fun item =>
      if item.revenue_category = some d then { item with revenue_category := none } else item),
           revenue_categories := s.revenue_categories.remove d }

/-! ### Printer-logical multi-edit operations (src/main.rs,
`Operation::PrinterLogicals`) -/

/-- The per-state update of `UpdateMultiName`: a proposed name of byte length
`< 17` replaces the name; otherwise the name is kept and a validation error
is recorded (src/main.rs lines 3024-3031). -/
def plRename (new_name : String) (st : ECEditState) : ECEditState :=
  if new_name.utf8ByteSize < 17 then { st with name := new_name }
  else { st with name_validation_error := some "Can\x27t have more than 16 characters" }

/-- `printer_logicals::Operation::UpdateMultiName` handler, src/main.rs lines
3018-3037: find the edit state whose id renders to `id` and apply the
length-guarded rename to it. -/
def plUpdateMultiName (s : AppState) (id : EntityId) (new_name : String) : AppState :=
  { s with printer_logical_edit_state_vec :=
      (modifyFirst (fun st => parseUnwrap st.id == id) (plRename new_name)
        s.printer_logical_edit_state_vec) }

/-- A sequence of `UpdateMultiName` messages, each an (id, proposed name)
pair. -/
def plUpdateSeq (s : AppState) (msgs : List (EntityId × String)) : AppState :=
  msgs.foldl (fun acc m => plUpdateMultiName acc m.1 m.2) s

/-- `printer_logicals::Operation::SaveMultiTest` handler, src/main.rs lines
2977-2999: commit the found edit state's name to the printer at `id`, then
drop every edit state for `id`. -/
def plSaveMultiTest (s : AppState) (id : EntityId) : AppState :=
  let printers :=
    match s.printer_logical_edit_state_vec.find? (fun st => parseUnwrap st.id == id) with
    | some edit_state =>
      match s.printer_logicals.get? id with
      | some printer => s.printer_logicals.insert id { printer with name := edit_state.name }
      | none => s.printer_logicals
    | none => s.printer_logicals
  { s with printer_logicals := printers,
           printer_logical_edit_state_vec :=
             s.printer_logical_edit_state_vec.filter (fun st => parseUnwrap st.id ≠ id) }

/-! ### Concrete states used to instantiate the claims -/

/-- A state with one committed choice group (id 1). -/
def cgStateEx : AppState :=
  { emptyState with choice_groups := [(1, { id := 1, name := "Soda" })] }

/-- A committed item used by the cascade/copy claims: it references item
group 5, revenue category 7 and choice groups 5 and 9. -/
def burgerItem : Item :=
  { id := 1, name := "Burger", item_group := some 5, tax_group := none,
    security_level := none, revenue_category := some 7, report_category := none,
    product_class := none, choice_groups := some [5, 9], printer_logicals := none,
    price_levels := none, item_prices := none }

/-- A state with one item, one product class (referencing item group 5 and
revenue category 7), one item group and one revenue category. -/
def graphStateEx : AppState :=
  { emptyState with
      items := [(1, burgerItem)],
      product_classes :=
        [(1, { id := 1, name := "Entrees", item_group := some 5,
               revenue_category := some 7 })],
      item_groups := [(5, { id := 5, name := "Food",
                            id_range := { start := 1, stop := 100 } })],
      revenue_categories := [(7, { id := 7, name := "FoodRev" })] }

/-- A printer edit state for printer 1 ("Kitchen"). -/
def plEditStEx : ECEditState :=
  { name := "Kitchen", original_name := "Kitchen", id := "1",
    id_validation_error := none, name_validation_error := none }

/-- A state with one printer logical and one printer edit state. -/
def plStateEx : AppState :=
  { emptyState with
      printer_logicals := [(1, { id := 1, name := "Kitchen" })],
      printer_logical_edit_state_vec := [plEditStEx] }

/-! ### C1 -/

/-- C1: the claim states that save-time validation of a `SecurityLevel`
enforces the declared 0-9 id range.  `SecurityLevel::validate` actually
checks `1..=999`, contradicting the repository's own
`IdRange::is_valid`/`// 0-9` declaration: id 500 (with a valid name, no
duplicates) passes validation although `IdRange` rejects it, and id 0 is
rejected although `IdRange` accepts it. -/
theorem C1_securityLevel_range_divergence :
    SecurityLevel.validate { id := 500, name := "Admin" } [] = .ok () ∧
    IdRange.is_valid (.SecurityLevel { start := 0, stop := 10 }) 500 = false ∧
    SecurityLevel.validate { id := 0, name := "Guest" } [] =
      .error (.InvalidId "Security level ID must be between 1 and 999") ∧
    IdRange.is_valid (.SecurityLevel { start := 0, stop := 10 }) 0 = true ∧
    SLEditState.validate { name := "Admin", id := "500", validation_error := none } =
      .ok () :=
  ⟨rfl, rfl, rfl, rfl, rfl⟩

/-! ### C2 -/

/-- C2 counterexample: immediately after `CreateNew` on a state whose only
choice group has id 1, the draft entity's id is 2 (the pre-allocated next
id), not `-1`; only the separate tracking slot holds `-1`. -/
theorem C2_draft_id_not_minus_one :
    (cgCreateNew cgStateEx ChoiceGroup.defaultValue).draft_choice_group.id = 2 ∧
    (cgCreateNew cgStateEx ChoiceGroup.defaultValue).draft_choice_group.id ≠ -1 :=
  ⟨rfl, by decide⟩

/-- C2 amended: `CreateNew` assigns `next_id` (`max existing + 1`, or 1 when
empty) to the draft entity at draft-creation time and stores `-1` only in
`draft_choice_group_id`, leaving the collection untouched; `Save` allocates a
fresh id only when the saved entity's id is negative, and otherwise commits
at the entity's existing id. -/
theorem C2_id_allocation (s : AppState) (cg g : ChoiceGroup) :
    (cgCreateNew s cg).draft_choice_group.id = s.choice_groups.nextId ∧
    (cgCreateNew s cg).draft_choice_group_id = some (-1) ∧
    (cgCreateNew s cg).choice_groups = s.choice_groups ∧
    (s.choice_groups.maxKey = none → s.choice_groups.nextId = 1) ∧
    (∀ m, s.choice_groups.maxKey = some m → s.choice_groups.nextId = m + 1) ∧
    (g.id < 0 → (cgSave s g).choice_groups =
      s.choice_groups.insert s.choice_groups.nextId
        { g with id := s.choice_groups.nextId }) ∧
    (0 ≤ g.id → (cgSave s g).choice_groups = s.choice_groups.insert g.id g) := by
  refine ⟨rfl, rfl, rfl, ?_, ?_, ?_, ?_⟩
  · intro h; simp [Store.nextId, h]
  · intro m h; simp [Store.nextId, h]
  · intro h; simp [cgSave, h]
  · intro h; simp [cgSave, not_lt.mpr h]

/-- C2 witness: both `Save` branches at concrete inputs on `cgStateEx`. -/
theorem C2_id_allocation_witness :
    (cgSave cgStateEx { id := -1, name := "Fries" }).choice_groups =
      cgStateEx.choice_groups.insert cgStateEx.choice_groups.nextId
        { id := cgStateEx.choice_groups.nextId, name := "Fries" } ∧
    (cgSave cgStateEx { id := 1, name := "Tea" }).choice_groups =
      cgStateEx.choice_groups.insert 1 { id := 1, name := "Tea" } := by
  constructor
  · exact (C2_id_allocation cgStateEx ChoiceGroup.defaultValue
      { id := -1, name := "Fries" }).2.2.2.2.2.1 (by decide)
  · exact (C2_id_allocation cgStateEx ChoiceGroup.defaultValue
      { id := 1, name := "Tea" }).2.2.2.2.2.2 (by decide)

/-! ### C3 -/

/-- C3 counterexample: for the ItemGroup entity type, `CreateNew` followed by
`CancelEdit` (with no field edits in between) does not restore the committed
collection: the new group with id 1 is inserted at creation and survives the
cancel. -/
theorem C3_itemGroup_cancel_leaves_record :
    (igCancelEdit (igCreateNew emptyState) 1).item_groups.get? 1 =
      some { id := 1, name := "", id_range := { start := 0, stop := 0 } } ∧
    emptyState.item_groups.get? 1 = none ∧
    (igCancelEdit (igCreateNew emptyState) 1).item_groups ≠
      emptyState.item_groups :=
  ⟨rfl, rfl, by decide⟩

/-- C3 amended: for the draft-based ChoiceGroup type, create-new followed by
any sequence of field edits and a cancel leaves the committed collection
exactly as before; for ItemGroup, create-new itself inserts the new group
(id `next_id`, empty name, range 0..0) into the collection, and any field
edits plus a cancel leave that inserted record in place. -/
theorem C3_cancel_frame (s : AppState) (msgs : List CGEditMsg)
    (igmsgs : List IGEditMsg) (k : EntityId) :
    (cgCancel (cgEditSeq (cgCreateNew s ChoiceGroup.defaultValue) msgs)).choice_groups =
      s.choice_groups ∧
    (igCancelEdit (igEditSeq (igCreateNew s) igmsgs) k).item_groups =
      s.item_groups.insert s.item_groups.nextId
        { id := s.item_groups.nextId, name := "",
          id_range := { start := 0, stop := 0 } } := by
  have hcgStep : ∀ t m, (cgEditStep t m).choice_groups = t.choice_groups := by
    intro t m; cases m <;> rfl
  have hcgSeq : ∀ ms t, (cgEditSeq t ms).choice_groups = t.choice_groups := by
    intro ms
    induction ms with
    | nil => intro t; rfl
    | cons m rest ih =>
      intro t
      show (cgEditSeq (cgEditStep t m) rest).choice_groups = t.choice_groups
      rw [ih, hcgStep]
  have higStep : ∀ t m, (igEditStep t m).item_groups = t.item_groups := by
    intro t m; cases m <;> rfl
  have higSeq : ∀ ms t, (igEditSeq t ms).item_groups = t.item_groups := by
    intro ms
    induction ms with
    | nil => intro t; rfl
    | cons m rest ih =>
      intro t
      show (igEditSeq (igEditStep t m) rest).item_groups = t.item_groups
      rw [ih, higStep]
  constructor
  · have hcancel : ∀ t : AppState, (cgCancel t).choice_groups = t.choice_groups := by
      intro t; unfold cgCancel; split <;> rfl
    rw [hcancel, hcgSeq]
    rfl
  · show (igEditSeq (igCreateNew s) igmsgs).item_groups = _
    rw [higSeq]
    rfl

/-! ### C5 -/

/-- C5 counterexample: with an existing group covering 1..100, validating a
draft with start 100, end 200 and a valid name fails with the overlap error —
adjacent ranges sharing an endpoint are NOT accepted. -/
theorem C5_adjacent_ranges_rejected :
    IGEditState.validate
      { name := "B", range_start := "100", range_end := "200",
        validation_error := none }
      [{ id := 1, name := "A", id_range := { start := 1, stop := 100 } }] =
      .error (.RangeOverlap "Range overlaps with group \x27A\x27") := rfl

/-- C5 amended: once the name is non-blank, both endpoints parse and
`start < end`, ItemGroup validation succeeds exactly when the draft interval
passes the closed-interval disjointness test against every other group
(`start <= other.end && other.start <= end` means overlap), so ranges that
merely touch at an endpoint are rejected and a draft must leave a gap
(e.g. 101..200 next to 1..100) to succeed. -/
theorem C5_overlap_is_closed_interval (st : IGEditState) (others : List ItemGroup)
    (s e : Int) (hname : blankName st.name = false)
    (hs : parseEntityId st.range_start = some s)
    (he : parseEntityId st.range_end = some e) (hlt : s < e) :
    IGEditState.validate st others = .ok () ↔
      ∀ g ∈ others, ¬(s ≤ g.id_range.stop ∧ g.id_range.start ≤ e) := by
  have hov : ∀ g : ItemGroup,
      ranges_overlap (s, e) (g.id_range.start, g.id_range.stop) = true ↔
        (s ≤ g.id_range.stop ∧ g.id_range.start ≤ e) := by
    intro g; simp [ranges_overlap]
  cases hfind : others.find? (fun other =>
      ranges_overlap (s, e) (other.id_range.start, other.id_range.stop)) with
  | none =>
    have hok : IGEditState.validate st others = .ok () := by
      simp [IGEditState.validate, hname, hs, he, not_le.mpr hlt, hfind]
    constructor
    · intro _ g hg hcontra
      exact (List.find?_eq_none.mp hfind g hg) ((hov g).mpr hcontra)
    · intro _; exact hok
  | some g =>
    have herr : IGEditState.validate st others =
        .error (.RangeOverlap ("Range overlaps with group \x27" ++ g.name ++ "\x27")) := by
      simp [IGEditState.validate, hname, hs, he, not_le.mpr hlt, hfind]
    constructor
    · intro h; rw [herr] at h; cases h
    · intro hall
      have hp := List.find?_some hfind
      exact absurd ((hov g).mp hp) (hall g (List.mem_of_find?_eq_some hfind))

/-- C5 witness: the gap-of-one draft 101..200 is accepted next to 1..100. -/
theorem C5_overlap_witness :
    IGEditState.validate
      { name := "B", range_start := "101", range_end := "200",
        validation_error := none }
      [{ id := 1, name := "A", id_range := { start := 1, stop := 100 } }] =
      .ok () := by
  exact (C5_overlap_is_closed_interval
    { name := "B", range_start := "101", range_end := "200",
      validation_error := none }
    [{ id := 1, name := "A", id_range := { start := 1, stop := 100 } }]
    101 200 rfl rfl rfl (by norm_num)).mpr (by decide)

/-! ### C6 -/

/-- C6 counterexample: the save-time validator of the choice-group edit form
checks the required-name rule FIRST: a draft with a blank name and the
out-of-range id string "99999" fails with `EmptyName`, not `InvalidId`. -/
theorem C6_empty_name_beats_invalid_id :
    CGEditState.validate { name := "", id := "99999", validation_error := none } [] =
      .error (.EmptyName "Choice group name cannot be empty") ∧
    ∀ msg, CGEditState.validate
        { name := "", id := "99999", validation_error := none } [] ≠
      .error (.InvalidId msg) := by
  refine ⟨rfl, ?_⟩
  intro msg h
  rw [show CGEditState.validate { name := "", id := "99999", validation_error := none } [] =
      .error (.EmptyName "Choice group name cannot be empty") from rfl] at h
  cases h

/-- C6 amended: the form-level validators (`EditState::validate` of
choice_groups/edit.rs and security_levels.rs) check the required-name rule
first, then id parse/range, then duplicates, so a blank name wins over an
invalid id; the struct-level `SecurityLevel::validate` used on the
security-level save path checks the id range first. -/
theorem C6_validation_order (st : CGEditState) (others : List ChoiceGroup)
    (sl : SLEditState) (lvl : SecurityLevel) (lvls : List SecurityLevel) :
    (blankName st.name = true →
      CGEditState.validate st others =
        .error (.EmptyName "Choice group name cannot be empty")) ∧
    (blankName sl.name = true →
      SLEditState.validate sl =
        .error (.EmptyName "Security level name cannot be empty")) ∧
    (blankName st.name = false → parseEntityId st.id = none →
      CGEditState.validate st others = .error (.InvalidId "Invalid ID format")) ∧
    (¬(1 ≤ lvl.id ∧ lvl.id ≤ 999) →
      SecurityLevel.validate lvl lvls =
        .error (.InvalidId "Security level ID must be between 1 and 999")) := by
  refine ⟨?_, ?_, ?_, ?_⟩
  · intro h; simp [CGEditState.validate, h]
  · intro h; simp [SLEditState.validate, h]
  · intro h hp; simp [CGEditState.validate, h, hp]
  · intro h; simp [SecurityLevel.validate, h]

/-- C6 witness: the order facts at concrete inputs. -/
theorem C6_validation_order_witness :
    CGEditState.validate { name := " ", id := "99999", validation_error := none } [] =
      .error (.EmptyName "Choice group name cannot be empty") ∧
    SLEditState.validate { name := " ", id := "5", validation_error := none } =
      .error (.EmptyName "Security level name cannot be empty") ∧
    CGEditState.validate { name := "x", id := "abc", validation_error := none } [] =
      .error (.InvalidId "Invalid ID format") ∧
    SecurityLevel.validate { id := 1000, name := "y" } [] =
      .error (.InvalidId "Security level ID must be between 1 and 999") := by
  refine ⟨?_, ?_, ?_, ?_⟩
  · exact (C6_validation_order { name := " ", id := "99999", validation_error := none }
      [] { name := "", id := "", validation_error := none }
      { id := 0, name := "" } []).1 (by decide)
  · exact (C6_validation_order { name := "", id := "", validation_error := none }
      [] { name := " ", id := "5", validation_error := none }
      { id := 0, name := "" } []).2.1 (by decide)
  · exact (C6_validation_order { name := "x", id := "abc", validation_error := none }
      [] { name := "", id := "", validation_error := none }
      { id := 0, name := "" } []).2.2.1 (by decide) (by decide)
  · exact (C6_validation_order { name := "", id := "", validation_error := none }
      [] { name := "", id := "", validation_error := none }
      { id := 1000, name := "y" } []).2.2.2 (by decide)

/-! ### C4 -/

/-- C4 counterexample: deleting item group 5 (or revenue category 7) from a
state whose product class 1 references both leaves the product class still
naming the deleted id — the cascade never visits `product_classes`. -/
theorem C4_productClass_reference_dangles :
    (confirmDeleteItemGroup graphStateEx 5).item_groups.get? 5 = none ∧
    (confirmDeleteItemGroup graphStateEx 5).product_classes.get? 1 =
      some { id := 1, name := "Entrees", item_group := some 5,
             revenue_category := some 7 } ∧
    (confirmDeleteRevenueCategory graphStateEx 7).revenue_categories.get? 7 = none ∧
    (confirmDeleteRevenueCategory graphStateEx 7).product_classes.get? 1 =
      some { id := 1, name := "Entrees", item_group := some 5,
             revenue_category := some 7 } :=
  ⟨rfl, rfl, rfl, rfl⟩

/-- C4 amended: confirmed deletion of an ItemGroup (resp. RevenueCategory)
removes the entity and nulls the matching scalar reference of every Item, but
leaves the `product_classes` collection entirely untouched, so ProductClass
references to the deleted id dangle. -/
theorem C4_cascade_items_only (s : AppState) (d k : EntityId) :
    (confirmDeleteItemGroup s d).product_classes = s.product_classes ∧
    (confirmDeleteRevenueCategory s d).product_classes = s.product_classes ∧
    (confirmDeleteItemGroup s d).item_groups.get? d = none ∧
    (confirmDeleteRevenueCategory s d).revenue_categories.get? d = none ∧
    (∀ it, s.items.get? k = some it →
      (confirmDeleteItemGroup s d).items.get? k =
        some (if it.item_group = some d then { it with item_group := none } else it)) ∧
    (∀ it, s.items.get? k = some it →
      (confirmDeleteRevenueCategory s d).items.get? k =
        some (if it.revenue_category = some d then
          { it with revenue_category := none } else it)) := by
  refine ⟨rfl, rfl, Store.get?_remove_self _ _, Store.get?_remove_self _ _, ?_, ?_⟩
  · intro it hit
    show (s.items.mapValues _).get? k = _
    rw [Store.get?_mapValues, hit]
    rfl
  · intro it hit
    show (s.items.mapValues _).get? k = _
    rw [Store.get?_mapValues, hit]
    rfl

/-- C4 witness: the item-side cleanup at the concrete graph state. -/
theorem C4_cascade_items_only_witness :
    (confirmDeleteItemGroup graphStateEx 5).items.get? 1 =
      some { burgerItem with item_group := none } ∧
    (confirmDeleteRevenueCategory graphStateEx 7).items.get? 1 =
      some { burgerItem with revenue_category := none } := by
  constructor
  · have h := (C4_cascade_items_only graphStateEx 5 1).2.2.2.2.1 burgerItem rfl
    rw [if_pos (show burgerItem.item_group = some 5 from rfl)] at h
    exact h
  · have h := (C4_cascade_items_only graphStateEx 7 1).2.2.2.2.2 burgerItem rfl
    rw [if_pos (show burgerItem.revenue_category = some 7 from rfl)] at h
    exact h

/-! ### C7 -/

/-- The choice-group list left by `stripChoiceGroupRef` never contains the
deleted id and is never the empty list. -/
theorem stripChoiceGroupRef_sound (d : EntityId) (it : Item) (l : List EntityId)
    (hl : (stripChoiceGroupRef d it).choice_groups = some l) : d ∉ l ∧ l ≠ [] := by
  cases hcg : it.choice_groups with
  | none => simp [stripChoiceGroupRef, hcg] at hl
  | some groups =>
    simp only [stripChoiceGroupRef, hcg] at hl
    by_cases hemp : (groups.filter (fun group_id => group_id ≠ d)).isEmpty
    · rw [if_pos hemp] at hl
      simp at hl
    · rw [if_neg hemp] at hl
      simp only [Option.some.injEq] at hl
      subst hl
      refine ⟨?_, ?_⟩
      · intro hmem
        have := (List.mem_filter.mp hmem).2
        simp at this
      · intro hnil
        rw [hnil] at hemp
        exact hemp rfl

/-- `stripChoiceGroupRef` touches no field except `choice_groups`. -/
theorem stripChoiceGroupRef_frame (d : EntityId) (it : Item) :
    { stripChoiceGroupRef d it with choice_groups := it.choice_groups } = it := by
  rcases it with ⟨iid, nm, ig, tg, sl, rc, rpc, pc, cg, plg, plv, ip⟩
  cases cg with
  | none => rfl
  | some groups =>
    simp only [stripChoiceGroupRef]
    split <;> rfl

/-- C7: confirmed deletion of choice group `d` removes `d` from its own
collection, deletes no item (key-for-key the items map is preserved), rewrites
every item by `stripChoiceGroupRef` — whose result never names `d`, is never
`some []` (an emptied list becomes `none`), and changes no other field. -/
theorem C7_choiceGroup_cascade (s : AppState) (d k : EntityId) :
    (confirmDeleteChoiceGroup s d).choice_groups.get? d = none ∧
    (((confirmDeleteChoiceGroup s d).items.get? k).isSome ↔
      (s.items.get? k).isSome) ∧
    (∀ it, s.items.get? k = some it →
      (confirmDeleteChoiceGroup s d).items.get? k =
        some (stripChoiceGroupRef d it)) ∧
    (∀ it l, (stripChoiceGroupRef d it).choice_groups = some l → d ∉ l ∧ l ≠ []) ∧
    (∀ it, { stripChoiceGroupRef d it with choice_groups := it.choice_groups } = it) := by
  refine ⟨Store.get?_remove_self _ _, ?_, ?_,
    fun it l hl => stripChoiceGroupRef_sound d it l hl,
    fun it => stripChoiceGroupRef_frame d it⟩
  · show ((s.items.mapValues _).get? k).isSome ↔ _
    rw [Store.get?_mapValues]
    cases s.items.get? k <;> simp
  · intro it hit
    show (s.items.mapValues _).get? k = _
    rw [Store.get?_mapValues, hit]
    rfl

/-- The burger item after choice group 5 is stripped: only the 9 remains. -/
def burgerStripped : Item := { burgerItem with choice_groups := some [9] }

/-- C7 witness: deleting choice group 5 at the concrete graph state leaves
the item with `choice_groups = some [9]`. -/
theorem C7_choiceGroup_cascade_witness :
    (confirmDeleteChoiceGroup graphStateEx 5).items.get? 1 =
      some (stripChoiceGroupRef 5 burgerItem) ∧
    stripChoiceGroupRef 5 burgerItem = burgerStripped ∧
    (confirmDeleteChoiceGroup graphStateEx 5).choice_groups.get? 5 = none := by
  refine ⟨(C7_choiceGroup_cascade graphStateEx 5 1).2.2.1 burgerItem rfl, by decide,
    (C7_choiceGroup_cascade graphStateEx 5 1).1⟩

/-! ### C8 -/

/-- C8: for any committed item at key `k`, `CopyItem` succeeds and inserts —
directly into the committed collection — a new item at `next_id`
(`max existing + 1`) equal to the original except for its id and its name,
which gains the `"(<new_id>)"` suffix; the original record at `k` is
unchanged, and the copy's id is fresh (`k ≠ next_id`). -/
theorem C8_copy_inserts_committed (s : AppState) (k : EntityId) (it : Item)
    (h : s.items.get? k = some it) :
    ∃ s2, itemCopy s k = some s2 ∧
      s2.items.get? s.items.nextId = some (it.copyWithId s.items.nextId) ∧
      (it.copyWithId s.items.nextId).id = s.items.nextId ∧
      (it.copyWithId s.items.nextId).name =
        it.name ++ "(" ++ toString s.items.nextId ++ ")" ∧
      { it.copyWithId s.items.nextId with id := it.id, name := it.name } = it ∧
      s2.items.get? k = some it ∧
      s2.draft_item_id = some s.items.nextId ∧
      k ≠ s.items.nextId ∧
      (∀ m, s.items.maxKey = some m → s.items.nextId = m + 1) := by
  have hk : k < s.items.nextId := Store.lt_nextId_of_get? s.items k it h
  have hne : k ≠ s.items.nextId := ne_of_lt hk
  refine ⟨{ s with
      items := s.items.insert s.items.nextId (it.copyWithId s.items.nextId),
      draft_item_id := some s.items.nextId,
      draft_item := it.copyWithId s.items.nextId,
      selected_item_id := some s.items.nextId }, ?_, ?_, rfl, rfl, rfl, ?_, rfl, hne, ?_⟩
  · simp only [itemCopy, h, Option.map_some']
  · exact Store.get?_insert_self _ _ _
  · rw [Store.get?_insert_ne _ _ _ _ hne]
    exact h
  · intro m hm
    simp [Store.nextId, hm]

/-- C8 witness: copying item 1 ("Burger") at the concrete graph state yields
the committed copy "Burger(2)" at id 2 with the original untouched. -/
theorem C8_copy_witness :
    (∃ s2, itemCopy graphStateEx 1 = some s2 ∧
      s2.items.get? graphStateEx.items.nextId =
        some (burgerItem.copyWithId graphStateEx.items.nextId) ∧
      (burgerItem.copyWithId graphStateEx.items.nextId).id =
        graphStateEx.items.nextId ∧
      (burgerItem.copyWithId graphStateEx.items.nextId).name =
        burgerItem.name ++ "(" ++ toString graphStateEx.items.nextId ++ ")" ∧
      { burgerItem.copyWithId graphStateEx.items.nextId with id := burgerItem.id, name := burgerItem.name } = burgerItem ∧
      s2.items.get? 1 = some burgerItem ∧
      s2.draft_item_id = some graphStateEx.items.nextId ∧
      (1 : EntityId) ≠ graphStateEx.items.nextId ∧
      (∀ m, graphStateEx.items.maxKey = some m →
        graphStateEx.items.nextId = m + 1)) ∧
    graphStateEx.items.nextId = 2 ∧
    (burgerItem.copyWithId 2).name = "Burger(2)" :=
  ⟨C8_copy_inserts_committed graphStateEx 1 burgerItem rfl, rfl, by decide⟩

/-! ### C9 -/

/-- C9: the copy/start-edit lookups are total exactly on present ids — for a
key of the collection they never panic (`isSome`), while for an absent id
they have no non-panicking branch (`none`); deletion of an absent item id, by
contrast, is a silent no-op. -/
theorem C9_lookup_totality (s : AppState) (k : EntityId) :
    ((s.choice_groups.get? k).isSome →
      (cgCopy s k).isSome ∧ (cgStartEdit s k).isSome) ∧
    ((s.items.get? k).isSome → (itemCopy s k).isSome) ∧
    (s.choice_groups.get? k = none → cgCopy s k = none ∧ cgStartEdit s k = none) ∧
    (s.items.get? k = none → itemCopy s k = none) ∧
    (s.items.get? k = none → confirmDeleteItemEntity s k = s) := by
  refine ⟨?_, ?_, ?_, ?_, ?_⟩
  · intro h
    rcases Option.isSome_iff_exists.mp h with ⟨cg, hcg⟩
    exact ⟨by simp [cgCopy, hcg], by simp [cgStartEdit, hcg]⟩
  · intro h
    rcases Option.isSome_iff_exists.mp h with ⟨it, hit⟩
    simp [itemCopy, hit]
  · intro h
    exact ⟨by simp [cgCopy, h], by simp [cgStartEdit, h]⟩
  · intro h
    simp [itemCopy, h]
  · intro h
    simp [confirmDeleteItemEntity, Store.containsKey, h]

/-- C9 witness: present ids succeed, absent ids hit the panicking lookup
(`none`), and deleting absent item id 3 is a no-op. -/
theorem C9_lookup_totality_witness :
    (cgCopy cgStateEx 1).isSome ∧ (cgStartEdit cgStateEx 1).isSome ∧
    (itemCopy graphStateEx 1).isSome ∧
    cgCopy cgStateEx 99 = none ∧ cgStartEdit cgStateEx 99 = none ∧
    itemCopy cgStateEx 1 = none ∧
    confirmDeleteItemEntity cgStateEx 3 = cgStateEx := by
  refine ⟨((C9_lookup_totality cgStateEx 1).1 (by rfl)).1,
          ((C9_lookup_totality cgStateEx 1).1 (by rfl)).2,
          (C9_lookup_totality graphStateEx 1).2.1 (by rfl),
          ((C9_lookup_totality cgStateEx 99).2.2.1 rfl).1,
          ((C9_lookup_totality cgStateEx 99).2.2.1 rfl).2,
          (C9_lookup_totality cgStateEx 1).2.2.2.1 rfl,
          (C9_lookup_totality cgStateEx 3).2.2.2.2 rfl⟩

/-! ### C10 -/

/-- Anything in `modifyFirst p f l` is an element of `l` or the image under
`f` of an element of `l`. -/
theorem mem_of_mem_modifyFirst {α : Type} (p : α → Bool) (f : α → α)
    (l : List α) (y : α) (hy : y ∈ modifyFirst p f l) :
    y ∈ l ∨ ∃ x, x ∈ l ∧ y = f x := by
  induction l with
  | nil => cases hy
  | cons x xs ih =>
    by_cases hx : p x
    · rw [modifyFirst, if_pos hx] at hy
      rcases List.mem_cons.mp hy with h | h
      · exact .inr ⟨x, List.mem_cons_self x xs, h⟩
      · exact .inl (List.mem_cons_of_mem x h)
    · rw [modifyFirst, if_neg hx] at hy
      rcases List.mem_cons.mp hy with h | h
      · exact .inl (by rw [h]; exact List.mem_cons_self x xs)
      · rcases ih h with h2 | ⟨z, hz, hyz⟩
        · exact .inl (List.mem_cons_of_mem x h2)
        · exact .inr ⟨z, List.mem_cons_of_mem x hz, hyz⟩

/-- `plRename` keeps a 16-byte name bound. -/
theorem plRename_name_le (new_name : String) (st : ECEditState)
    (h : st.name.utf8ByteSize ≤ 16) :
    (plRename new_name st).name.utf8ByteSize ≤ 16 := by
  unfold plRename
  by_cases hlen : new_name.utf8ByteSize < 17
  · rw [if_pos hlen]
    exact Nat.lt_succ_iff.mp hlen
  · rw [if_neg hlen]
    exact h

/-- C10: an `UpdateMultiName` with a proposed name of 17 or more bytes leaves
the edit-state name unchanged and records the validation error, a shorter
name is accepted verbatim, so across any sequence of `UpdateMultiName`
messages every edit-state name stays within 16 bytes, and names committed by
`SaveMultiTest` stay within 16 bytes as well. -/
theorem C10_rename_cap (s : AppState) (k : EntityId) (new_name : String)
    (st : ECEditState) :
    (17 ≤ new_name.utf8ByteSize →
      (plRename new_name st).name = st.name ∧
      (plRename new_name st).name_validation_error =
        some "Can\x27t have more than 16 characters") ∧
    (new_name.utf8ByteSize < 17 → (plRename new_name st).name = new_name) ∧
    ((∀ st0 ∈ s.printer_logical_edit_state_vec, st0.name.utf8ByteSize ≤ 16) →
      ∀ msgs, ∀ st1 ∈ (plUpdateSeq s msgs).printer_logical_edit_state_vec,
        st1.name.utf8ByteSize ≤ 16) ∧
    ((∀ st0 ∈ s.printer_logical_edit_state_vec, st0.name.utf8ByteSize ≤ 16) →
      (∀ j pl, s.printer_logicals.get? j = some pl →
        pl.name.utf8ByteSize ≤ 16) →
      ∀ j pl, (plSaveMultiTest s k).printer_logicals.get? j = some pl →
        pl.name.utf8ByteSize ≤ 16) := by
  have hstep : ∀ (t : AppState) (id : EntityId) (nm : String),
      (∀ st0 ∈ t.printer_logical_edit_state_vec, st0.name.utf8ByteSize ≤ 16) →
      ∀ st1 ∈ (plUpdateMultiName t id nm).printer_logical_edit_state_vec,
        st1.name.utf8ByteSize ≤ 16 := by
    intro t id nm hall st1 h1
    rcases mem_of_mem_modifyFirst _ _ _ _ h1 with h | ⟨z, hz, hyz⟩
    · exact hall st1 h
    · rw [hyz]
      exact plRename_name_le nm z (hall z hz)
  refine ⟨?_, ?_, ?_, ?_⟩
  · intro h
    unfold plRename
    rw [if_neg (not_lt.mpr h)]
    exact ⟨rfl, rfl⟩
  · intro h
    unfold plRename
    rw [if_pos h]
  · intro hall msgs
    have haux : ∀ (ms : List (EntityId × String)) (t : AppState),
        (∀ st0 ∈ t.printer_logical_edit_state_vec, st0.name.utf8ByteSize ≤ 16) →
        ∀ st1 ∈ (plUpdateSeq t ms).printer_logical_edit_state_vec,
          st1.name.utf8ByteSize ≤ 16 := by
      intro ms
      induction ms with
      | nil => intro t ht st1 h1; exact ht st1 h1
      | cons m rest ih =>
        intro t ht st1 h1
        exact ih (plUpdateMultiName t m.1 m.2) (hstep t m.1 m.2 ht) st1 h1
    exact haux msgs s hall
  · intro hall hstore j pl hpl
    have hprint : (plSaveMultiTest s k).printer_logicals =
        match s.printer_logical_edit_state_vec.find?
            (fun st => parseUnwrap st.id == k) with
        | some edit_state =>
          match s.printer_logicals.get? k with
          | some printer =>
            s.printer_logicals.insert k { printer with name := edit_state.name }
          | none => s.printer_logicals
        | none => s.printer_logicals := rfl
    rw [hprint] at hpl
    cases hfind : s.printer_logical_edit_state_vec.find?
        (fun st => parseUnwrap st.id == k) with
    | none =>
      rw [hfind] at hpl
      exact hstore j pl hpl
    | some est =>
      rw [hfind] at hpl
      cases hget : s.printer_logicals.get? k with
      | none =>
        rw [hget] at hpl
        exact hstore j pl hpl
      | some pr =>
        rw [hget] at hpl
        by_cases hj : j = k
        · subst hj
          rw [Store.get?_insert_self] at hpl
          injection hpl with hh
          rw [← hh]
          exact hall est (List.mem_of_find?_eq_some hfind)
        · rw [Store.get?_insert_ne _ _ _ _ hj] at hpl
          exact hstore j pl hpl

/-- C10 witness: a 17-byte proposed name is rejected with the error, a short
one accepted, and a concrete update sequence keeps all names within 16
bytes. -/
theorem C10_rename_cap_witness :
    (plRename "abcdefghijklmnopq" plEditStEx).name = "Kitchen" ∧
    (plRename "abcdefghijklmnopq" plEditStEx).name_validation_error =
      some "Can\x27t have more than 16 characters" ∧
    (plRename "Bar" plEditStEx).name = "Bar" ∧
    ∀ st1 ∈ (plUpdateSeq plStateEx
        [(1, "abcdefghijklmnopq"), (1, "Grill")]).printer_logical_edit_state_vec,
      st1.name.utf8ByteSize ≤ 16 := by
  obtain ⟨h1, h2⟩ :=
    (C10_rename_cap plStateEx 1 "abcdefghijklmnopq" plEditStEx).1 (by decide)
  refine ⟨h1, h2, (C10_rename_cap plStateEx 1 "Bar" plEditStEx).2.1 (by decide), ?_⟩
  exact (C10_rename_cap plStateEx 1 "x" plEditStEx).2.2.1 (by decide)
    [(1, "abcdefghijklmnopq"), (1, "Grill")]

end MenuBuilderSpec
